import Mathlib

/-!
Verification of the credit-metered asynchronous job pipeline
(backend/app/services/subscription_service.py, backend/app/tasks/video_tasks.py,
backend/app/services/stitch_service.py, backend/app/models/job.py).

The Python source is shallowly embedded: the single-user ledger state is the
row of the `subscriptions` table for one user (the table has a unique index on
user_id) together with the append-only `credit_transactions` rows for that
user, in creation order.  Machine integers are modelled as `Int` (Python ints
are unbounded; the DB columns are plain integers).  Fallible code returns
`Except` / `Option`.
-/

namespace CreditPipeline

/-- `SubscriptionStatus` from app/models/subscription.py. -/
inductive SubStatus
  | trialing
  | active
  | canceled
  | expired
  | revoked
  deriving DecidableEq, Repr

/-- `TransactionType` from app/models/credit_transaction.py. -/
inductive TransactionType
  | allocation
  | trial_allocation
  | deduction
  | refund
  | expiration
  | adjustment
  deriving DecidableEq, Repr

/-- The fields of `Subscription` that the ledger operations read or write. -/
structure Subscription where
  status : SubStatus
  credits_balance : Int
  credits_total : Int
  deriving DecidableEq, Repr

/-- The fields of a `CreditTransaction` row that the claims are about. -/
structure CreditTransaction where
  type : TransactionType
  amount : Int
  balance_after : Int
  job_id : Option Nat
  deriving DecidableEq, Repr

/-- One user's slice of the durable store: their subscription row (if any) and
their transaction rows in creation order (rows are only ever appended). -/
structure LedgerState where
  subscription : Option Subscription
  transactions : List CreditTransaction
  deriving DecidableEq, Repr

/-- `InsufficientCreditsError` from app/core/exceptions.py, as raised by
`deduct_credits` with the `required` and `available` arguments. -/
structure InsufficientCreditsError where
  required : Int
  available : Int
  deriving DecidableEq, Repr

/-- `settings.CREDITS_TRIAL` (app/config.py). -/
def CREDITS_TRIAL : Int := 50

/-- `settings.CREDITS_PRO_MONTHLY` (app/config.py). -/
def CREDITS_PRO_MONTHLY : Int := 300

/-- The status filter used by `get_active_subscription`, `deduct_credits` and
`reward_credits`: `status.in_([ACTIVE, TRIALING, CANCELED])`. -/
def eligibleStatus : SubStatus → Bool
  | SubStatus.active => true
  | SubStatus.trialing => true
  | SubStatus.canceled => true
  | _ => false

/-- `SubscriptionService.deduct_credits` (subscription_service.py:239-285).
The `SELECT ... FOR UPDATE` query filters on the eligible statuses, so an
ineligible subscription behaves exactly like a missing one (`available=0`).
On success the balance is decremented and a deduction row is appended; the
raising paths run before any mutation, so they return only the error. -/
def deduct_credits (st : LedgerState) (amount : Int) (jid : Option Nat) :
    Except InsufficientCreditsError (LedgerState × CreditTransaction) :=
  match st.subscription with
  | none => Except.error { required := amount, available := 0 }
  | some sub =>
    if eligibleStatus sub.status then
      if sub.credits_balance < amount then
        Except.error { required := amount, available := sub.credits_balance }
      else
        let newBal := sub.credits_balance - amount
        let tx : CreditTransaction :=
          { type := TransactionType.deduction, amount := -amount,
            balance_after := newBal, job_id := jid }
        Except.ok ({ subscription := some { sub with credits_balance := newBal },
                     transactions := st.transactions ++ [tx] }, tx)
    else
      Except.error { required := amount, available := 0 }

/-- The durable state after a `deduct_credits` call: the new state on success,
the unchanged input state when the call raises (the exception is raised before
any mutation of the session). -/
def deductPost (st : LedgerState) (amount : Int) (jid : Option Nat) : LedgerState :=
  match deduct_credits st amount jid with
  | Except.ok (st2, _) => st2
  | Except.error _ => st

/-- `refund_credits` (subscription_service.py:325-356) and its synchronous
twin `refund_credits_sync` (:359-394).  Both select the subscription by
`user_id` only — there is no status filter — and return `None` without any
write when no row exists. -/
def refund_credits (st : LedgerState) (amount : Int) (jid : Option Nat) :
    Option CreditTransaction × LedgerState :=
  match st.subscription with
  | none => (none, st)
  | some sub =>
    let newBal := sub.credits_balance + amount
    let tx : CreditTransaction :=
      { type := TransactionType.refund, amount := amount,
        balance_after := newBal, job_id := jid }
    (some tx, { subscription := some { sub with credits_balance := newBal },
                transactions := st.transactions ++ [tx] })

/-- `reward_credits` (subscription_service.py:287-323): filtered on the
eligible statuses, silently skipped when no row matches. -/
def reward_credits (st : LedgerState) (amount : Int) :
    Option CreditTransaction × LedgerState :=
  match st.subscription with
  | none => (none, st)
  | some sub =>
    if eligibleStatus sub.status then
      let newBal := sub.credits_balance + amount
      let tx : CreditTransaction :=
        { type := TransactionType.adjustment, amount := amount,
          balance_after := newBal, job_id := none }
      (some tx, { subscription := some { sub with credits_balance := newBal },
                  transactions := st.transactions ++ [tx] })
    else (none, st)

/-- `create_trial` (subscription_service.py:56-93): returns the existing
subscription unchanged when one exists, otherwise creates a trialing
subscription with the trial credits and logs a trial_allocation row. -/
def create_trial (st : LedgerState) : LedgerState :=
  match st.subscription with
  | some _ => st
  | none =>
    { subscription := some { status := SubStatus.trialing,
                             credits_balance := CREDITS_TRIAL,
                             credits_total := CREDITS_TRIAL },
      transactions := st.transactions ++
        [{ type := TransactionType.trial_allocation, amount := CREDITS_TRIAL,
           balance_after := CREDITS_TRIAL, job_id := none }] }

/-- `activate_subscription` (subscription_service.py:95-146): sets the
subscription active with the full monthly credits (creating the row if
needed) and logs an allocation row with `balance_after` read back from the
subscription. -/
def activate_subscription (st : LedgerState) : LedgerState :=
  match st.subscription with
  | some sub =>
    let sub2 := { sub with status := SubStatus.active,
                           credits_balance := CREDITS_PRO_MONTHLY,
                           credits_total := CREDITS_PRO_MONTHLY }
    { subscription := some sub2,
      transactions := st.transactions ++
        [{ type := TransactionType.allocation, amount := CREDITS_PRO_MONTHLY,
           balance_after := sub2.credits_balance, job_id := none }] }
  | none =>
    { subscription := some { status := SubStatus.active,
                             credits_balance := CREDITS_PRO_MONTHLY,
                             credits_total := CREDITS_PRO_MONTHLY },
      transactions := st.transactions ++
        [{ type := TransactionType.allocation, amount := CREDITS_PRO_MONTHLY,
           balance_after := CREDITS_PRO_MONTHLY, job_id := none }] }

/-- `handle_renewal` (subscription_service.py:148-199): looked up by the
provider subscription id with no status filter; a positive remaining balance
is first consumed by an expiration row, then the balance is reset and an
allocation row appended. -/
def handle_renewal (st : LedgerState) : LedgerState :=
  match st.subscription with
  | none => st
  | some sub =>
    let oldBalance := sub.credits_balance
    let expireTxs : List CreditTransaction :=
      if 0 < oldBalance then
        [{ type := TransactionType.expiration, amount := -oldBalance,
           balance_after := 0, job_id := none }]
      else []
    let sub2 := { sub with status := SubStatus.active,
                           credits_balance := CREDITS_PRO_MONTHLY,
                           credits_total := CREDITS_PRO_MONTHLY }
    { subscription := some sub2,
      transactions := st.transactions ++ expireTxs ++
        [{ type := TransactionType.allocation, amount := CREDITS_PRO_MONTHLY,
           balance_after := CREDITS_PRO_MONTHLY, job_id := none }] }

/-- The ledger operations named by the invariant claim. -/
inductive LedgerOp
  | createTrial
  | activate
  | renewal
  | deduct (amount : Int)
  | reward (amount : Int)
  | refundOp (amount : Int)
  deriving DecidableEq, Repr

/-- The durable state after one ledger operation (a raising `deduct` leaves
the durable state untouched). -/
def applyOp : LedgerOp → LedgerState → LedgerState
  | LedgerOp.createTrial, st => create_trial st
  | LedgerOp.activate, st => activate_subscription st
  | LedgerOp.renewal, st => handle_renewal st
  | LedgerOp.deduct a, st => deductPost st a none
  | LedgerOp.reward a, st => (reward_credits st a).2
  | LedgerOp.refundOp a, st => (refund_credits st a none).2

/-- Claim C1: every successful `deduct_credits` call appends exactly one
deduction row whose `balance_after` is the prior balance minus the amount and
decrements the stored balance by exactly the amount; the call raises
`InsufficientCredits` precisely when no eligible subscription exists or the
balance is below the amount, and a raising call leaves the durable state
unchanged. -/
theorem deduct_credits_spec (st : LedgerState) (amount : Int) (jid : Option Nat) :
    (∀ st2 tx, deduct_credits st amount jid = Except.ok (st2, tx) →
      ∃ sub, st.subscription = some sub ∧ eligibleStatus sub.status = true ∧
        amount ≤ sub.credits_balance ∧
        tx.type = TransactionType.deduction ∧ tx.amount = -amount ∧
        tx.balance_after = sub.credits_balance - amount ∧
        st2.subscription = some { sub with credits_balance := sub.credits_balance - amount } ∧
        st2.transactions = st.transactions ++ [tx])
    ∧ ((∃ e, deduct_credits st amount jid = Except.error e) ↔
        ∀ sub, st.subscription = some sub → eligibleStatus sub.status = true →
          sub.credits_balance < amount)
    ∧ (∀ e, deduct_credits st amount jid = Except.error e →
        deductPost st amount jid = st) := by
  obtain ⟨osub, txs⟩ := st
  cases osub with
  | none =>
    refine ⟨?_, ?_, ?_⟩
    · intro st2 tx h
      simp [deduct_credits] at h
    · simp [deduct_credits]
    · intro e h
      simp [deductPost, deduct_credits]
  | some sub =>
    by_cases he : eligibleStatus sub.status
    · by_cases hb : sub.credits_balance < amount
      · refine ⟨?_, ?_, ?_⟩
        · intro st2 tx h
          simp [deduct_credits, he, hb] at h
        · simp [deduct_credits, he, hb]
        · intro e h
          simp [deductPost, deduct_credits, he, hb]
      · refine ⟨?_, ?_, ?_⟩
        · intro st2 tx h
          simp only [deduct_credits, he, if_true, hb, if_false,
            Except.ok.injEq, Prod.mk.injEq] at h
          refine ⟨sub, rfl, he, not_lt.mp hb, ?_⟩
          obtain ⟨h1, h2⟩ := h
          subst h1
          subst h2
          simp
        · constructor
          · rintro ⟨e, h⟩
            simp [deduct_credits, he, hb] at h
          · intro h
            exact absurd (h sub rfl he) hb
        · intro e h
          simp [deduct_credits, he, hb] at h
    · refine ⟨?_, ?_, ?_⟩
      · intro st2 tx h
        simp [deduct_credits, he] at h
      · simp only [deduct_credits, he, if_false]
        constructor
        · rintro ⟨e, h⟩ s hs hel
          rw [Option.some.injEq] at hs
          subst hs
          exact absurd hel (by simp [he])
        · intro h
          exact ⟨_, rfl⟩
      · intro e h
        simp [deductPost, deduct_credits, he]

/-- Concrete instance of `deduct_credits_spec`: deducting 25 from an active
subscription with balance 50 yields the expected transaction and state. -/
theorem deduct_credits_spec_witness :
    ∃ sub, (LedgerState.mk (some (Subscription.mk SubStatus.active 50 50)) []).subscription
        = some sub ∧
      eligibleStatus sub.status = true ∧ (25 : Int) ≤ sub.credits_balance ∧
      (CreditTransaction.mk TransactionType.deduction (-25) 25 none).type
        = TransactionType.deduction ∧
      (CreditTransaction.mk TransactionType.deduction (-25) 25 none).amount = -25 ∧
      (CreditTransaction.mk TransactionType.deduction (-25) 25 none).balance_after
        = sub.credits_balance - 25 ∧
      (LedgerState.mk (some (Subscription.mk SubStatus.active 25 50))
          [CreditTransaction.mk TransactionType.deduction (-25) 25 none]).subscription
        = some { sub with credits_balance := sub.credits_balance - 25 } ∧
      (LedgerState.mk (some (Subscription.mk SubStatus.active 25 50))
          [CreditTransaction.mk TransactionType.deduction (-25) 25 none]).transactions
        = (LedgerState.mk (some (Subscription.mk SubStatus.active 50 50)) []).transactions
          ++ [CreditTransaction.mk TransactionType.deduction (-25) 25 none] :=
  (deduct_credits_spec (LedgerState.mk (some (Subscription.mk SubStatus.active 50 50)) [])
    25 none).1
    (LedgerState.mk (some (Subscription.mk SubStatus.active 25 50))
      [CreditTransaction.mk TransactionType.deduction (-25) 25 none])
    (CreditTransaction.mk TransactionType.deduction (-25) 25 none) rfl

/-- N deduction requests of the same amount executed in sequence.  The
`SELECT ... FOR UPDATE` row lock in `deduct_credits` makes each call atomic
(the lock is held over the read/compare/decrement/insert span), so every
concurrent execution of N requests is equivalent to some serial order; this
runs that serial order and records the success of each request (`true` =
committed deduction, `false` = `InsufficientCreditsError`). -/
def runDeducts (st : LedgerState) (amount : Int) : Nat → List Bool × LedgerState
  | 0 => ([], st)
  | n + 1 =>
    match deduct_credits st amount none with
    | Except.ok (st2, _) =>
      let r := runDeducts st2 amount n
      (true :: r.1, r.2)
    | Except.error _ =>
      let r := runDeducts st amount n
      (false :: r.1, r.2)

lemma runDeducts_insufficient (amount : Int) (n : Nat) (st : LedgerState)
    (sub : Subscription) (hs : st.subscription = some sub)
    (hlt : sub.credits_balance < amount) :
    runDeducts st amount n = (List.replicate n false, st) := by
  induction n with
  | zero => simp [runDeducts]
  | succ m ih =>
    by_cases he : eligibleStatus sub.status
    · simp [runDeducts, deduct_credits, hs, he, hlt, ih, List.replicate_succ]
    · simp [runDeducts, deduct_credits, hs, he, ih, List.replicate_succ]

/-- Claim C2: starting from an eligible subscription whose balance equals
exactly one request's (positive) cost, any serialization of N ≥ 1 concurrent
deduction requests of that cost has exactly one success and N − 1
`InsufficientCredits` failures, and the balance after any prefix of the run
is never negative. -/
theorem deduct_exactly_one_success (sub : Subscription) (txs : List CreditTransaction)
    (c : Int) (n : Nat) (helig : eligibleStatus sub.status = true)
    (hbal : sub.credits_balance = c) (hc : 0 < c) (hn : 1 ≤ n) :
    ((runDeducts (LedgerState.mk (some sub) txs) c n).1.count true = 1)
    ∧ ((runDeducts (LedgerState.mk (some sub) txs) c n).1.count false = n - 1)
    ∧ (∀ k sub2, (runDeducts (LedgerState.mk (some sub) txs) c k).2.subscription = some sub2 →
        0 ≤ sub2.credits_balance) := by
  obtain ⟨m, rfl⟩ : ∃ m, n = m + 1 := ⟨n - 1, by omega⟩
  have hfirst : deduct_credits (LedgerState.mk (some sub) txs) c none =
      Except.ok (LedgerState.mk (some { sub with credits_balance := 0 })
        (txs ++ [CreditTransaction.mk TransactionType.deduction (-c) 0 none]),
        CreditTransaction.mk TransactionType.deduction (-c) 0 none) := by
    simp [deduct_credits, helig, hbal]
  have hrest := runDeducts_insufficient c m
    (LedgerState.mk (some { sub with credits_balance := 0 })
      (txs ++ [CreditTransaction.mk TransactionType.deduction (-c) 0 none]))
    { sub with credits_balance := 0 } rfl (by simpa using hc)
  refine ⟨?_, ?_, ?_⟩
  · simp [runDeducts, hfirst, hrest, List.count_replicate]
  · simp [runDeducts, hfirst, hrest, List.count_replicate]
  · intro k sub2 hsub2
    cases k with
    | zero =>
      simp [runDeducts] at hsub2
      rw [← hsub2]
      omega
    | succ j =>
      have hrestj := runDeducts_insufficient c j
        (LedgerState.mk (some { sub with credits_balance := 0 })
          (txs ++ [CreditTransaction.mk TransactionType.deduction (-c) 0 none]))
        { sub with credits_balance := 0 } rfl (by simpa using hc)
      rw [runDeducts, hfirst] at hsub2
      simp [hrestj] at hsub2
      rw [← hsub2]

/-- Concrete instance of `deduct_exactly_one_success`: three requests of
cost 25 against a balance of exactly 25 give one success and two failures. -/
theorem deduct_exactly_one_success_witness :
    ((runDeducts (LedgerState.mk (some (Subscription.mk SubStatus.active 25 50)) [])
        25 3).1.count true = 1)
    ∧ ((runDeducts (LedgerState.mk (some (Subscription.mk SubStatus.active 25 50)) [])
        25 3).1.count false = 3 - 1) :=
  ⟨(deduct_exactly_one_success (Subscription.mk SubStatus.active 25 50) [] 25 3
      rfl rfl (by decide) (by decide)).1,
   (deduct_exactly_one_success (Subscription.mk SubStatus.active 25 50) [] 25 3
      rfl rfl (by decide) (by decide)).2.1⟩

/-- Claim C3: after every ledger operation (trial creation, activation,
renewal, deduction, reward, refund), if the operation wrote any transaction
rows then the subscription's live `credits_balance` equals the
`balance_after` of the most recently created transaction, and every change
to the balance appends at least one transaction row. -/
theorem ledger_balance_matches_last_transaction (op : LedgerOp) (st : LedgerState) :
    ((applyOp op st).transactions ≠ st.transactions →
      ∃ tx sub, (applyOp op st).transactions.getLast? = some tx ∧
        (applyOp op st).subscription = some sub ∧
        tx.balance_after = sub.credits_balance)
    ∧ (Option.map Subscription.credits_balance (applyOp op st).subscription ≠
        Option.map Subscription.credits_balance st.subscription →
        st.transactions.length < (applyOp op st).transactions.length) := by
  obtain ⟨osub, txs⟩ := st
  cases op with
  | createTrial =>
    cases osub with
    | none =>
      refine ⟨fun _ => ?_, fun _ => ?_⟩
      · exact ⟨{ type := TransactionType.trial_allocation, amount := CREDITS_TRIAL,
                 balance_after := CREDITS_TRIAL, job_id := none },
               { status := SubStatus.trialing, credits_balance := CREDITS_TRIAL,
                 credits_total := CREDITS_TRIAL },
               by simp [applyOp, create_trial], rfl, rfl⟩
      · simp [applyOp, create_trial]
    | some sub => simp [applyOp, create_trial]
  | activate =>
    cases osub with
    | none =>
      refine ⟨fun _ => ?_, fun _ => ?_⟩
      · exact ⟨{ type := TransactionType.allocation, amount := CREDITS_PRO_MONTHLY,
                 balance_after := CREDITS_PRO_MONTHLY, job_id := none },
               { status := SubStatus.active, credits_balance := CREDITS_PRO_MONTHLY,
                 credits_total := CREDITS_PRO_MONTHLY },
               by simp [applyOp, activate_subscription], rfl, rfl⟩
      · simp [applyOp, activate_subscription]
    | some sub =>
      refine ⟨fun _ => ?_, fun _ => ?_⟩
      · exact ⟨{ type := TransactionType.allocation, amount := CREDITS_PRO_MONTHLY,
                 balance_after := CREDITS_PRO_MONTHLY, job_id := none },
               { status := SubStatus.active, credits_balance := CREDITS_PRO_MONTHLY,
                 credits_total := CREDITS_PRO_MONTHLY },
               by simp [applyOp, activate_subscription], rfl, rfl⟩
      · simp [applyOp, activate_subscription]
  | renewal =>
    cases osub with
    | none => simp [applyOp, handle_renewal]
    | some sub =>
      refine ⟨fun _ => ?_, fun _ => ?_⟩
      · refine ⟨{ type := TransactionType.allocation, amount := CREDITS_PRO_MONTHLY,
                  balance_after := CREDITS_PRO_MONTHLY, job_id := none },
                { status := SubStatus.active, credits_balance := CREDITS_PRO_MONTHLY,
                  credits_total := CREDITS_PRO_MONTHLY }, ?_, rfl, rfl⟩
        show (txs ++ _ ++ [_]).getLast? = _
        rw [List.getLast?_concat]
      · show txs.length < (txs ++ _ ++ [_]).length
        simp
  | deduct a =>
    by_cases hsucc : ∃ r, deduct_credits (LedgerState.mk osub txs) a none = Except.ok r
    · obtain ⟨⟨st2, tx⟩, hr⟩ := hsucc
      cases osub with
      | none => simp [deduct_credits] at hr
      | some sub =>
        by_cases he : eligibleStatus sub.status
        · by_cases hb : sub.credits_balance < a
          · simp [deduct_credits, he, hb] at hr
          · simp only [deduct_credits, he, if_true, hb, if_false,
              Except.ok.injEq, Prod.mk.injEq] at hr
            obtain ⟨h1, h2⟩ := hr
            refine ⟨fun _ => ?_, fun _ => ?_⟩
            · refine ⟨{ type := TransactionType.deduction, amount := -a,
                        balance_after := sub.credits_balance - a, job_id := none },
                      { status := sub.status,
                        credits_balance := sub.credits_balance - a,
                        credits_total := sub.credits_total }, ?_, ?_, rfl⟩
              · simp [applyOp, deductPost, deduct_credits, he, hb,
                  List.getLast?_concat]
              · simp [applyOp, deductPost, deduct_credits, he, hb]
            · simp [applyOp, deductPost, deduct_credits, he, hb]
        · simp [deduct_credits, he] at hr
    · have herr : ∀ st2 tx,
          deduct_credits (LedgerState.mk osub txs) a none ≠ Except.ok (st2, tx) := by
        intro st2 tx hcon
        exact hsucc ⟨(st2, tx), hcon⟩
      have hpost : applyOp (LedgerOp.deduct a) (LedgerState.mk osub txs) =
          LedgerState.mk osub txs := by
        simp only [applyOp, deductPost]
        cases hd : deduct_credits (LedgerState.mk osub txs) a none with
        | ok r => exact absurd hd (by obtain ⟨st2, tx⟩ := r; exact herr st2 tx)
        | error e => rfl
      rw [hpost]
      simp
  | reward a =>
    cases osub with
    | none => simp [applyOp, reward_credits]
    | some sub =>
      by_cases he : eligibleStatus sub.status
      · refine ⟨fun _ => ?_, fun _ => ?_⟩
        · exact ⟨{ type := TransactionType.adjustment, amount := a,
                   balance_after := sub.credits_balance + a, job_id := none },
                 { status := sub.status, credits_balance := sub.credits_balance + a,
                   credits_total := sub.credits_total },
                 by simp [applyOp, reward_credits, he, List.getLast?_concat],
                 by simp [applyOp, reward_credits, he], rfl⟩
        · simp [applyOp, reward_credits, he]
      · simp [applyOp, reward_credits, he]
  | refundOp a =>
    cases osub with
    | none => simp [applyOp, refund_credits]
    | some sub =>
      refine ⟨fun _ => ?_, fun _ => ?_⟩
      · exact ⟨{ type := TransactionType.refund, amount := a,
                 balance_after := sub.credits_balance + a, job_id := none },
               { status := sub.status, credits_balance := sub.credits_balance + a,
                 credits_total := sub.credits_total },
               by simp [applyOp, refund_credits, List.getLast?_concat],
               by simp [applyOp, refund_credits], rfl⟩
      · simp [applyOp, refund_credits]

/-- Concrete instance of `ledger_balance_matches_last_transaction`: a refund
of 25 onto a balance of 10 appends a row and the new live balance 35 equals
that row's `balance_after`. -/
theorem ledger_balance_matches_last_transaction_witness :
    (∃ tx sub,
      (applyOp (LedgerOp.refundOp 25)
        (LedgerState.mk (some (Subscription.mk SubStatus.active 10 50)) [])).transactions.getLast?
          = some tx ∧
      (applyOp (LedgerOp.refundOp 25)
        (LedgerState.mk (some (Subscription.mk SubStatus.active 10 50)) [])).subscription
          = some sub ∧
      tx.balance_after = sub.credits_balance)
    ∧ ([] : List CreditTransaction).length <
      (applyOp (LedgerOp.refundOp 25)
        (LedgerState.mk (some (Subscription.mk SubStatus.active 10 50)) [])).transactions.length :=
  ⟨(ledger_balance_matches_last_transaction (LedgerOp.refundOp 25)
      (LedgerState.mk (some (Subscription.mk SubStatus.active 10 50)) [])).1 (by decide),
   (ledger_balance_matches_last_transaction (LedgerOp.refundOp 25)
      (LedgerState.mk (some (Subscription.mk SubStatus.active 10 50)) [])).2 (by decide)⟩

/-- An expired subscription with balance 10, as a refund target. -/
def expiredLedger : LedgerState :=
  LedgerState.mk (some (Subscription.mk SubStatus.expired 10 50)) []

/-- Claim C8 counterexample: `refund_credits` selects the subscription with no
status filter, so refunding 25 credits to a user whose subscription is
`expired` does create a transaction and does change the balance, contrary to
the claim that refunds apply only to active/trialing/canceled subscriptions. -/
theorem refund_ignores_status_counterexample :
    (refund_credits expiredLedger 25 none).1 ≠ none
    ∧ (refund_credits expiredLedger 25 none).2 ≠ expiredLedger
    ∧ (refund_credits expiredLedger 25 none).2.transactions.length = 1
    ∧ (refund_credits expiredLedger 25 none).2.subscription
        = some (Subscription.mk SubStatus.expired 35 50) := by
  refine ⟨?_, ?_, rfl, rfl⟩ <;> decide

/-- Claim C8 (amended): refunds are applied to the user's subscription
regardless of its status — including expired and revoked — crediting the
amount and appending a refund row; only when no subscription row exists at
all does refund return nothing and change nothing rather than failing the
caller. -/
theorem refund_credits_spec (st : LedgerState) (amount : Int) (jid : Option Nat) :
    (st.subscription = none → refund_credits st amount jid = (none, st))
    ∧ (∀ sub, st.subscription = some sub →
        ∃ tx, refund_credits st amount jid =
          (some tx,
           LedgerState.mk (some { sub with credits_balance := sub.credits_balance + amount })
             (st.transactions ++ [tx]))
          ∧ tx.type = TransactionType.refund ∧ tx.amount = amount
          ∧ tx.balance_after = sub.credits_balance + amount) := by
  obtain ⟨osub, txs⟩ := st
  constructor
  · intro h
    simp only at h
    subst h
    rfl
  · intro sub hs
    simp only [Option.some.injEq] at hs
    cases osub with
    | none => exact absurd hs (by simp)
    | some s =>
      have hss : s = sub := by simpa using hs
      subst hss
      exact ⟨{ type := TransactionType.refund, amount := amount,
               balance_after := s.credits_balance + amount, job_id := jid },
             rfl, rfl, rfl, rfl⟩

/-- Concrete instance of `refund_credits_spec`: refunding 25 onto a revoked
subscription with balance 0 yields a refund row with `balance_after` 25. -/
theorem refund_credits_spec_witness :
    ∃ tx, refund_credits (LedgerState.mk (some (Subscription.mk SubStatus.revoked 0 50)) [])
        25 none =
      (some tx,
       LedgerState.mk
         (some { Subscription.mk SubStatus.revoked 0 50 with
                 credits_balance := (Subscription.mk SubStatus.revoked 0 50).credits_balance + 25 })
         ((LedgerState.mk (some (Subscription.mk SubStatus.revoked 0 50)) []).transactions ++ [tx]))
      ∧ tx.type = TransactionType.refund ∧ tx.amount = 25
      ∧ tx.balance_after = (Subscription.mk SubStatus.revoked 0 50).credits_balance + 25 :=
  (refund_credits_spec (LedgerState.mk (some (Subscription.mk SubStatus.revoked 0 50)) [])
    25 none).2 (Subscription.mk SubStatus.revoked 0 50) rfl

/-- `JobStatus` from app/models/job.py. -/
inductive JobStatus
  | pending
  | processing
  | completed
  | failed
  deriving DecidableEq, Repr

/-- The `Job` fields written by `update_job_status_sync`. -/
structure Job where
  status : JobStatus
  progress : Nat
  error : Option String
  deriving DecidableEq, Repr

/-- `update_job_status_sync` (video_tasks.py:42-65): assigns the given status
and progress unconditionally — there is no guard on the current status — and
overwrites the error only when one is given. -/
def update_job_status_sync (j : Job) (status : JobStatus) (progress : Nat)
    (error : Option String) : Job :=
  { j with status := status, progress := progress,
           error := match error with | some e => some e | none => j.error }

/-- One status/progress/error write against the job row, in execution order. -/
structure JobWrite where
  status : JobStatus
  progress : Nat
  error : Option String
  deriving DecidableEq, Repr

/-- `settings.VEO_POLL_INTERVAL` (app/config.py): seconds between polls. -/
def VEO_POLL_INTERVAL : Nat := 10

/-- `settings.VEO_MAX_POLL_TIME` (app/config.py): total poll budget, seconds. -/
def VEO_MAX_POLL_TIME : Nat := 360

/-- `max_polls = settings.VEO_MAX_POLL_TIME // settings.VEO_POLL_INTERVAL`
(video_tasks.py:138). -/
def maxPolls : Nat := VEO_MAX_POLL_TIME / VEO_POLL_INTERVAL

instance decEqExcept {ε α : Type} [DecidableEq ε] [DecidableEq α] :
    DecidableEq (Except ε α)
  | Except.ok a, Except.ok b =>
    match decEq a b with
    | isTrue h => isTrue (by rw [h])
    | isFalse h => isFalse (fun hh => h (by cases hh; rfl))
  | Except.ok _, Except.error _ => isFalse (fun hh => by cases hh)
  | Except.error _, Except.ok _ => isFalse (fun hh => by cases hh)
  | Except.error e, Except.error f =>
    match decEq e f with
    | isTrue h => isTrue (by rw [h])
    | isFalse h => isFalse (fun hh => h (by cases hh; rfl))

/-- One `veo_service.poll_operation` reply: the `done` flag and the optional
error message of the reply dict. -/
structure PollResult where
  done : Bool
  error : Option String
  deriving DecidableEq, Repr

/-- The external provider's behaviour for one job, replayed identically on
every task attempt: the result of `start` (error message or started) and the
successive poll replies (polls beyond the list are `not done`, modelling an
operation that never finishes). -/
structure ProviderBehavior where
  startResult : Except String Unit
  polls : List PollResult
  deriving DecidableEq, Repr

/-- `str.lower()`. -/
def lowerStr (s : String) : String := String.mk (s.data.map Char.toLower)

/-- Whether the first character list starts the second. -/
def leadsList : List Char → List Char → Bool
  | [], _ => true
  | _ :: _, [] => false
  | a :: as, b :: bs => a == b && leadsList as bs

/-- Substring search on character lists. -/
def containsSubList (needle : List Char) : List Char → Bool
  | [] => leadsList needle []
  | c :: rest => leadsList needle (c :: rest) || containsSubList needle rest

/-- Python's `needle in haystack` substring test. -/
def containsSub (haystack needle : String) : Bool :=
  containsSubList needle.data haystack.data

/-- The timeout message raised at video_tasks.py:189. -/
def timeoutMsg : String :=
  "Video operation timed out after " ++ toString VEO_MAX_POLL_TIME ++ "s"

/-- The poll loop of `_execute_video_operation` (video_tasks.py:137-189):
at most `max_polls` polls; a done reply with an error writes FAILED and
raises (with a rate-limit message when the error mentions quota/rate); a done
reply without error writes COMPLETED; a pending reply bumps the interpolated
progress and sleeps `VEO_POLL_INTERVAL`.  Returns the outcome, the job writes
of the loop, and the number of polls performed.  `j` counts completed polls
(the code's `poll_count`). -/
def pollLoop (polls : List PollResult) : Nat → Nat → List JobWrite →
    Except String Unit × List JobWrite × Nat
  | j, 0, acc => (Except.error timeoutMsg, acc, j)
  | j, fuel + 1, acc =>
    let r := polls.getD j (PollResult.mk false none)
    if r.done then
      match r.error with
      | some e =>
        let acc2 := acc ++ [JobWrite.mk JobStatus.failed 0 (some e)]
        if containsSub (lowerStr e) "quota" || containsSub (lowerStr e) "rate" then
          (Except.error ("Rate limited: " ++ e), acc2, j + 1)
        else
          (Except.error e, acc2, j + 1)
      | none => (Except.ok (), acc ++ [JobWrite.mk JobStatus.completed 100 none], j + 1)
    else
      pollLoop polls (j + 1) fuel
        (acc ++ [JobWrite.mk JobStatus.processing
          (min (10 + (j + 1) * 70 / maxPolls) 80) none])

/-- The observable effects of one task attempt. -/
structure AttemptResult where
  outcome : Except String Unit
  writes : List JobWrite
  polls : Nat
  ledger : LedgerState
  deriving DecidableEq, Repr

/-- One attempt of the `generate_video` task body (video_tasks.py:232-368)
around `_execute_video_operation` (:91-215): write PROCESSING 0, start the
operation (a start error mentioning safety/blocked writes FAILED and raises
the content-blocked message; any other start error re-raises), then write
PROCESSING 10 and run the poll loop.  In the exception handler, when
`request.retries >= max_retries` the job is written FAILED and, for a paid
job, `refund_credits_sync` restores the credits (it is status-blind, see
`refund_credits`).  Every raised exception propagates to Celery. -/
def runAttempt (b : ProviderBehavior) (retries maxRetries : Nat)
    (refundAmount : Option Int) (ledger : LedgerState) : AttemptResult :=
  let w0 := [JobWrite.mk JobStatus.processing 0 none]
  let step : Except String Unit × List JobWrite × Nat :=
    match b.startResult with
    | Except.error e =>
      if containsSub (lowerStr e) "safety" || containsSub (lowerStr e) "blocked" then
        (Except.error "Content blocked by safety filters - will not retry",
         w0 ++ [JobWrite.mk JobStatus.failed 0 (some "Content blocked by safety filters")], 0)
      else
        (Except.error e, w0, 0)
    | Except.ok _ =>
      pollLoop b.polls 0 maxPolls (w0 ++ [JobWrite.mk JobStatus.processing 10 none])
  match step with
  | (Except.ok u, ws, p) => AttemptResult.mk (Except.ok u) ws p ledger
  | (Except.error e, ws, p) =>
    if maxRetries ≤ retries then
      let ledger2 := match refundAmount with
        | some amt => (refund_credits ledger amt none).2
        | none => ledger
      AttemptResult.mk (Except.error e)
        (ws ++ [JobWrite.mk JobStatus.failed 0 (some e)]) p ledger2
    else
      AttemptResult.mk (Except.error e) ws p ledger

/-- The observable effects of a whole task lifecycle (all attempts). -/
structure RunResult where
  attempts : Nat
  writes : List JobWrite
  pollsPerAttempt : List Nat
  outcome : Except String Unit
  ledger : LedgerState
  deriving DecidableEq, Repr

/-- The Celery retry driver for a task declared with
`autoretry_for=(Exception,)` and a `max_retries` bound
(video_tasks.py:218-231): every raised exception schedules a retry while
`request.retries < max_retries`; the attempt running with
`request.retries = max_retries` is the last one and its exception is final.
`retries` is the current attempt's `request.retries`. -/
def runTaskAux (b : ProviderBehavior) (maxRetries : Nat) (refundAmount : Option Int) :
    Nat → Nat → List JobWrite → List Nat → LedgerState → RunResult
  | _, 0, ws, ps, lg => RunResult.mk 0 ws ps (Except.error "no attempt") lg
  | retries, fuel + 1, ws, ps, lg =>
    let a := runAttempt b retries maxRetries refundAmount lg
    match a.outcome with
    | Except.ok u =>
      RunResult.mk (retries + 1) (ws ++ a.writes) (ps ++ [a.polls]) (Except.ok u) a.ledger
    | Except.error e =>
      if retries < maxRetries then
        runTaskAux b maxRetries refundAmount (retries + 1) fuel
          (ws ++ a.writes) (ps ++ [a.polls]) a.ledger
      else
        RunResult.mk (retries + 1) (ws ++ a.writes) (ps ++ [a.polls]) (Except.error e) a.ledger

/-- A full run of the task: first attempt has `request.retries = 0`. -/
def runTask (b : ProviderBehavior) (maxRetries : Nat) (refundAmount : Option Int)
    (ledger : LedgerState) : RunResult :=
  runTaskAux b maxRetries refundAmount 0 (maxRetries + 1) [] [] ledger

/-- Number of refund rows of the given amount in the ledger. -/
def countRefunds (st : LedgerState) (amt : Int) : Nat :=
  (st.transactions.filter
    (fun t => decide (t.type = TransactionType.refund ∧ t.amount = amt))).length

/-- The job-status writes of a run, in order. -/
def statusesOf (r : RunResult) : List JobStatus := r.writes.map JobWrite.status

/-- Provider behaviour for claim C4: the operation starts, and the first poll
reports done with a safety-blocked error. -/
def safetyBehavior : ProviderBehavior :=
  ProviderBehavior.mk (Except.ok ())
    [PollResult.mk true (some "Video generation failed: safety blocked")]

/-- Provider behaviour for claim C5: the operation starts and never reports
done, so every attempt exhausts the poll budget. -/
def timeoutBehavior : ProviderBehavior :=
  ProviderBehavior.mk (Except.ok ()) []

/-- The ledger of a user who paid 25 credits for the job (balance 75 of 300
after the deduction). -/
def paidLedger : LedgerState :=
  LedgerState.mk (some (Subscription.mk SubStatus.active 75 300)) []

/-- Claim C4 counterexample: for a paid (credit_cost=25) video_generation
job whose provider reports "safety blocked" on the first poll, the task does
NOT stop after the failing first attempt: the poll-error path raises a plain
exception and `autoretry_for=(Exception,)` with `max_retries=3` runs 4
attempts in total, so the claimed "zero further retry attempts" is false. -/
theorem safety_block_zero_retries_counterexample :
    (runTask safetyBehavior 3 (some 25) paidLedger).attempts = 4
    ∧ (runTask safetyBehavior 3 (some 25) paidLedger).attempts ≠ 1 :=
  ⟨rfl, by decide⟩

/-- Claim C4 (amended): a video_generation job with credit_cost=25 whose
provider reports "safety blocked" on the first poll is written FAILED
immediately on that first attempt (after exactly one poll, with no refund
yet), but the raised exception is auto-retried: the task runs 4 attempts
(3 retries) in total, and exactly one +25 refund transaction is recorded,
on the final attempt. -/
theorem safety_block_failure_and_refund :
    ((runAttempt safetyBehavior 0 3 (some 25) paidLedger).writes.getLast?
      = some (JobWrite.mk JobStatus.failed 0
          (some "Video generation failed: safety blocked")))
    ∧ (runAttempt safetyBehavior 0 3 (some 25) paidLedger).polls = 1
    ∧ (runAttempt safetyBehavior 0 3 (some 25) paidLedger).ledger = paidLedger
    ∧ (runTask safetyBehavior 3 (some 25) paidLedger).attempts = 4
    ∧ countRefunds (runTask safetyBehavior 3 (some 25) paidLedger).ledger 25 = 1 :=
  ⟨rfl, rfl, rfl, rfl, rfl⟩

/-- Claim C5 counterexample: a job whose operation never completes times out
on every attempt, and the timeout is retried 3 more times (4 attempts in
total, `max_retries=3`), not "exactly once more" (which would give 2
attempts). -/
theorem poll_timeout_single_retry_counterexample :
    (runTask timeoutBehavior 3 (some 25) paidLedger).attempts = 4
    ∧ (runTask timeoutBehavior 3 (some 25) paidLedger).attempts ≠ 2 :=
  ⟨rfl, by decide⟩

/-- Claim C5 (amended): the poller checks the operation every 10 seconds for
a bounded total wait of 360 seconds (36 polls); exceeding the bound raises a
timeout exception which is retryable, and a persistent poll timeout is
retried 3 more times (`max_retries=3`) before the job is permanently failed
and the paid credits refunded once. -/
theorem poll_timeout_spec :
    VEO_POLL_INTERVAL = 10 ∧ VEO_MAX_POLL_TIME = 360 ∧ maxPolls = 36
    ∧ (runAttempt timeoutBehavior 0 3 (some 25) paidLedger).polls = 36
    ∧ (runAttempt timeoutBehavior 0 3 (some 25) paidLedger).outcome
        = Except.error timeoutMsg
    ∧ (runTask timeoutBehavior 3 (some 25) paidLedger).attempts = 4
    ∧ (statusesOf (runTask timeoutBehavior 3 (some 25) paidLedger)).getLast?
        = some JobStatus.failed
    ∧ countRefunds (runTask timeoutBehavior 3 (some 25) paidLedger).ledger 25 = 1 :=
  ⟨rfl, rfl, rfl, rfl, rfl, rfl, rfl, rfl⟩

/-- Claim C7 counterexample: in the safety-blocked run the job is written
FAILED by the first attempt (write index 2) and then written PROCESSING
again by the retried attempt (write index 3), so a FAILED status is not
immutable. -/
theorem terminal_status_overwritten_counterexample :
    (statusesOf (runTask safetyBehavior 3 (some 25) paidLedger))[2]?
      = some JobStatus.failed
    ∧ (statusesOf (runTask safetyBehavior 3 (some 25) paidLedger))[3]?
      = some JobStatus.processing :=
  ⟨rfl, rfl⟩

/-- Claim C7 (amended): `update_job_status_sync` assigns the given status
unconditionally, whatever the current status, so a retried task attempt
transitions a FAILED job back to PROCESSING; only after the final attempt,
when no further write occurs, does the status remain terminal (the last
write of an exhausted run is FAILED). -/
theorem job_status_write_unconditional (j : Job) (s : JobStatus) (p : Nat)
    (e : Option String) :
    (update_job_status_sync j s p e).status = s
    ∧ (statusesOf (runTask safetyBehavior 3 (some 25) paidLedger)).getLast?
        = some JobStatus.failed :=
  ⟨rfl, rfl⟩

/-- `JobType` from app/models/job.py:11-15: the enum defines exactly four
members — there is no `video_stitch` and no `video_export` member, although
app/api/ai.py:396 and :454 reference `JobType.VIDEO_STITCH` and
`JobType.VIDEO_EXPORT` and the alembic migrations add those values to the
database enum. -/
inductive JobType
  | face_analysis
  | prompt_enhancement
  | video_generation
  | video_extension
  deriving DecidableEq, Repr

/-- The string value of each `JobType` member. -/
def JobType.value : JobType → String
  | JobType.face_analysis => "face_analysis"
  | JobType.prompt_enhancement => "prompt_enhancement"
  | JobType.video_generation => "video_generation"
  | JobType.video_extension => "video_extension"

/-- All members of the `JobType` enum, in declaration order. -/
def allJobTypes : List JobType :=
  [JobType.face_analysis, JobType.prompt_enhancement,
   JobType.video_generation, JobType.video_extension]

/-- Claim C9: the `JobType` enum does NOT contain six values — it has
exactly the four members face_analysis, prompt_enhancement,
video_generation and video_extension, and contains neither `video_stitch`
nor `video_export`, so the stitch and export endpoints reference
non-existent enum members. -/
theorem jobtype_enum_is_missing_stitch_and_export :
    (∀ t : JobType, t ∈ allJobTypes)
    ∧ allJobTypes.map JobType.value
      = ["face_analysis", "prompt_enhancement", "video_generation", "video_extension"]
    ∧ allJobTypes.length = 4
    ∧ "video_stitch" ∉ allJobTypes.map JobType.value
    ∧ "video_export" ∉ allJobTypes.map JobType.value := by
  refine ⟨?_, rfl, rfl, ?_, ?_⟩
  · intro t
    cases t <;> simp [allJobTypes]
  · decide
  · decide

/-- Transition modes of stitch_service.py. -/
inductive Transition
  | cut
  | fade
  | crossfade
  deriving DecidableEq, Repr

/-- `TRANSITION_DURATION = 0.5` (stitch_service.py:38); 0.5 is exactly
representable, so ℚ models the Python float arithmetic here exactly. -/
def TRANSITION_DURATION : ℚ := 1 / 2

/-- Transition-list normalisation (stitch_service.py:112-116): pad with
"cut" up to `len(video_urls) - 1`, then truncate to that length. -/
def normalizeTransitions (nSrc : Nat) (ts : List Transition) : List Transition :=
  (ts ++ List.replicate (nSrc - 1 - ts.length) Transition.cut).take (nSrc - 1)

/-- `has_fade = any(t in ("fade", "crossfade") for t in transitions)`
(stitch_service.py:130). -/
def hasFade (ts : List Transition) : Bool :=
  ts.any fun t => match t with
    | Transition.fade => true
    | Transition.crossfade => true
    | Transition.cut => false

/-- One xfade filter of the chain: the ffmpeg transition name and offset. -/
structure XfadeStep where
  kind : String
  offset : ℚ
  deriving DecidableEq, Repr

/-- The xfade chain of stitch_service.py:173-186, built for EVERY junction
of the fade path (a "cut" junction is also rendered, with the fadegrays
transition, since only `crossfade` is distinguished at :178):
`offset = max(cumulative_offset - TRANSITION_DURATION, 0)` and then
`cumulative_offset += duration_i - TRANSITION_DURATION`.  The second
component is the running output duration under the ffmpeg xfade semantics
(output length = offset + length of second input), which the filter chain
realises; for nonnegative offsets it coincides with the final
`cumulative_offset`. -/
def xfadeChain : List ℚ → List Transition → ℚ → ℚ → List XfadeStep × ℚ
  | d :: rest, t :: ts, cumulative, _ =>
    let kind := if t = Transition.crossfade then "fadeblack" else "fadegrays"
    let off := max (cumulative - TRANSITION_DURATION) 0
    let r := xfadeChain rest ts (cumulative + d - TRANSITION_DURATION) (off + d)
    (XfadeStep.mk kind off :: r.1, r.2)
  | _, _, _, cur => ([], cur)

/-- The xfade steps the fade path emits for the given probed durations and
(normalised) transition list. -/
def stitchSteps (durations : List ℚ) (ts : List Transition) : List XfadeStep :=
  (xfadeChain durations.tail (normalizeTransitions durations.length ts)
    (durations.headD 0) (durations.headD 0)).1

/-- Output duration of `stitch_videos` for the given probed source durations
and transitions.  Cut-only path: concat demuxer stream copy, output length =
sum of the inputs.  Fade path: the xfade chain of stitch_service.py:173-196,
each junction consuming an overlapped `TRANSITION_DURATION`. -/
def stitchOutputDuration (durations : List ℚ) (ts : List Transition) : ℚ :=
  if hasFade (normalizeTransitions durations.length ts) then
    (xfadeChain durations.tail (normalizeTransitions durations.length ts)
      (durations.headD 0) (durations.headD 0)).2
  else
    durations.sum

/-- Claim C6 counterexample: stitching 5s/5s/5s with transitions
[cut, fade] yields an output of 14.0s, not ≈ 14.5s — the "cut" junction is
not free: in the re-encode path it is rendered as an xfade and consumes
0.5s exactly like the fade junction. -/
theorem stitch_duration_counterexample :
    stitchOutputDuration [5, 5, 5] [Transition.cut, Transition.fade] = 14
    ∧ stitchOutputDuration [5, 5, 5] [Transition.cut, Transition.fade] ≠ 29 / 2 := by
  constructor <;>
    norm_num [stitchOutputDuration, normalizeTransitions, hasFade, xfadeChain,
      TRANSITION_DURATION, max_def]

/-- Claim C6 (amended): with sources 5s/5s/5s and transitions [cut, fade],
the fade path renders BOTH junctions as xfades of duration 0.5 (the cut
junction with kind fadegrays, offset 4.5; the fade junction at offset 9.0),
so the output lasts 15 − 2·0.5 = 14.0s, the same as [fade, fade]; only the
all-cut stream-copy path leaves the full 15.0s. -/
theorem stitch_duration_spec :
    stitchSteps [5, 5, 5] [Transition.cut, Transition.fade]
      = [XfadeStep.mk "fadegrays" (9 / 2), XfadeStep.mk "fadegrays" 9]
    ∧ stitchOutputDuration [5, 5, 5] [Transition.cut, Transition.fade] = 14
    ∧ stitchOutputDuration [5, 5, 5] [Transition.fade, Transition.fade] = 14
    ∧ stitchOutputDuration [5, 5, 5] [Transition.cut, Transition.cut] = 15 := by
  refine ⟨?_, ?_, ?_, ?_⟩
  · norm_num [stitchSteps, normalizeTransitions, xfadeChain,
      TRANSITION_DURATION, max_def]
    simp
  · norm_num [stitchOutputDuration, normalizeTransitions, hasFade, xfadeChain,
      TRANSITION_DURATION, max_def]
  · norm_num [stitchOutputDuration, normalizeTransitions, hasFade, xfadeChain,
      TRANSITION_DURATION, max_def]
  · norm_num [stitchOutputDuration, normalizeTransitions, hasFade, xfadeChain,
      TRANSITION_DURATION, max_def]

/-- `ASPECT_RATIO_DIMENSIONS` (stitch_service.py:31-36) as a lookup. -/
def lookupDims (a : String) : Option (String × String) :=
  if a = "9:16" then some ("1080", "1920")
  else if a = "4:5" then some ("1080", "1350")
  else if a = "1:1" then some ("1080", "1080")
  else if a = "16:9" then some ("1920", "1080")
  else none

/-- The scale+letterbox filter used by the resize and export commands. -/
def scalePadFilter (w h : String) : String :=
  "scale=" ++ w ++ ":" ++ h ++ ":force_original_aspect_ratio=decrease,pad="
    ++ w ++ ":" ++ h ++ ":(ow-iw)/2:(oh-ih)/2"

/-- The cut-path concat command (stitch_service.py:141-146): stream copy. -/
def concatCmd : List String :=
  ["-f", "concat", "-safe", "0", "-i", "concat.txt", "-c", "copy", "stitched.mp4"]

/-- The fade-path encode command (stitch_service.py:189-196).  The
per-source `-i` arguments (two shown) and the filtergraph text are abstract
here — the claims depend on the mapping/codec flags, and the xfade offsets
are modelled by `xfadeChain`; every flag from `-filter_complex` on is
verbatim, in particular `-map [vout]` (video only) and `-an`. -/
def stitchXfadeCmd : List String :=
  ["-i", "src_00.mp4", "-i", "src_01.mp4",
   "-filter_complex", "scaled-xfade-filtergraph", "-map", "[vout]",
   "-c:v", "libx264", "-preset", "fast", "-crf", "23", "-an", "stitched.mp4"]

/-- The cut-path aspect resize command (stitch_service.py:199-211):
re-encodes video through the scale+pad filter; no `-an`, no `-map`. -/
def resizeCmd (w h : String) : List String :=
  ["-i", "stitched.mp4", "-vf", scalePadFilter w h,
   "-c:v", "libx264", "-preset", "fast", "-crf", "23", "resized.mp4"]

/-- The export scale command (stitch_service.py:257-267): always `-an`. -/
def exportScaleCmd (w h : String) : List String :=
  ["-i", "source.mp4", "-vf", scalePadFilter w h ++ ",setsar=1",
   "-c:v", "libx264", "-preset", "fast", "-crf", "23", "-an", "scaled.mp4"]

/-- The export trim command (stitch_service.py:275-282): stream copy of the
scaled file; the numeric `-t` value is abstract (no claim depends on it). -/
def trimCmd : List String :=
  ["-i", "scaled.mp4", "-t", "platform-max-duration", "-c", "copy", "trimmed.mp4"]

/-- The ffmpeg invocations `stitch_videos` performs after download, in
order, for the given number of sources, transition list and target aspect
(stitch_service.py:129-211): the fade path is one encode (aspect handled
inline); the cut path is the concat copy, followed by the resize pass only
when a known aspect is requested. -/
def stitch_videos_cmds (nSrc : Nat) (ts : List Transition)
    (targetAspect : Option String) : List (List String) :=
  if hasFade (normalizeTransitions nSrc ts) then [stitchXfadeCmd]
  else
    match targetAspect.bind lookupDims with
    | some wh => [concatCmd, resizeCmd wh.1 wh.2]
    | none => [concatCmd]

/-- `PLATFORM_PRESETS` (stitch_service.py:41-47). -/
structure PlatformPreset where
  aspect : String
  maxDuration : Option ℚ
  width : String
  height : String
  deriving DecidableEq, Repr

/-- Platform preset lookup (`PLATFORM_PRESETS.get(platform)`). -/
def lookupPreset (p : String) : Option PlatformPreset :=
  if p = "tiktok" then some (PlatformPreset.mk "9:16" (some 60) "1080" "1920")
  else if p = "instagram_reels" then some (PlatformPreset.mk "9:16" (some 90) "1080" "1920")
  else if p = "instagram_feed" then some (PlatformPreset.mk "4:5" (some 60) "1080" "1350")
  else if p = "youtube_shorts" then some (PlatformPreset.mk "9:16" (some 60) "1080" "1920")
  else if p = "youtube" then some (PlatformPreset.mk "16:9" none "1920" "1080")
  else none

/-- The ffmpeg invocations of `export_for_platform`
(stitch_service.py:228-282): `none` models the `ValueError` for an unknown
platform; otherwise the scale+letterbox encode, followed by the stream-copy
trim when the scaled file exceeds the preset's max duration. -/
def exportCmdsOf (p : PlatformPreset) (scaledDuration : ℚ) : List (List String) :=
  match p.maxDuration with
  | some m =>
    if m < scaledDuration then
      [exportScaleCmd p.width p.height, trimCmd]
    else
      [exportScaleCmd p.width p.height]
  | none => [exportScaleCmd p.width p.height]

def export_for_platform_cmds (platform : String) (scaledDuration : ℚ) :
    Option (List (List String)) :=
  match lookupPreset platform with
  | none => none
  | some p => some (exportCmdsOf p scaledDuration)

/-- Modelled from the subprocess contract (ffmpeg default stream mapping):
a command's output carries the input's audio unless the command disables
audio recording with `-an` or uses explicit `-map` arguments — in this
code base every `-map` maps only the video label `[vout]`. -/
def keepsSound (cmd : List String) : Bool :=
  !(cmd.any fun s => s == "-an" || s == "-map")

/-- Whether audio survives a pipeline of commands, each consuming the
previous output, given whether the sources carry audio. -/
def soundThrough (cmds : List (List String)) (src : Bool) : Bool :=
  cmds.foldl (fun a c => a && keepsSound c) src

lemma soundThrough_false (cmds : List (List String)) :
    soundThrough cmds false = false := by
  induction cmds with
  | nil => rfl
  | cons c cs ih =>
    show soundThrough cs (false && keepsSound c) = false
    rw [Bool.false_and]
    exact ih

lemma keepsSound_exportScaleCmd (w h : String) :
    keepsSound (exportScaleCmd w h) = false := by
  simp [keepsSound, exportScaleCmd]

lemma lookupDims_pairs (a : String) (wh : String × String)
    (h : lookupDims a = some wh) :
    wh = ("1080", "1920") ∨ wh = ("1080", "1350")
    ∨ wh = ("1080", "1080") ∨ wh = ("1920", "1080") := by
  unfold lookupDims at h
  split_ifs at h <;> simp_all

/-- Claim C10 counterexample: a cut-only stitch WITH a requested aspect
change also preserves the sources' audio (the resize pass has neither `-an`
nor `-map`, so ffmpeg's default mapping keeps the audio stream), refuting
the claim that only the cut-only path with no aspect change preserves
audio. -/
theorem cut_with_aspect_keeps_sound_counterexample :
    soundThrough (stitch_videos_cmds 3 [Transition.cut, Transition.cut]
      (some "9:16")) true = true
    ∧ stitch_videos_cmds 3 [Transition.cut, Transition.cut] (some "9:16")
      ≠ stitch_videos_cmds 3 [Transition.cut, Transition.cut] none := by
  constructor <;> decide

/-- Claim C10 (amended): every stitch that takes the fade/crossfade
re-encode path and every platform export produces a video with no audio
stream (`-an`, or `-map` of the video-only label), even when every source
has audio; the cut-only stitch path preserves the sources' audio both
without an aspect change (stream copy) and with one (re-encode without
`-an`/`-map`). -/
theorem stitch_export_sound_spec (nSrc : Nat) (ts : List Transition)
    (targetAspect : Option String) (srcSound : Bool) (platform : String)
    (dur : ℚ) :
    (hasFade (normalizeTransitions nSrc ts) = true →
      soundThrough (stitch_videos_cmds nSrc ts targetAspect) srcSound = false)
    ∧ (hasFade (normalizeTransitions nSrc ts) = false →
      soundThrough (stitch_videos_cmds nSrc ts targetAspect) srcSound = srcSound)
    ∧ (∀ cmds, export_for_platform_cmds platform dur = some cmds →
      soundThrough cmds srcSound = false) := by
  refine ⟨?_, ?_, ?_⟩
  · intro hf
    have hx : keepsSound stitchXfadeCmd = false := by decide
    simp [stitch_videos_cmds, hf, soundThrough, hx]
  · intro hf
    simp only [stitch_videos_cmds, hf, Bool.false_eq_true, if_false]
    have hcc : keepsSound concatCmd = true := by decide
    cases hb : targetAspect.bind lookupDims with
    | none =>
      show soundThrough [concatCmd] srcSound = srcSound
      simp [soundThrough, hcc]
    | some wh =>
      obtain ⟨a, _, hla⟩ := Option.bind_eq_some.mp hb
      have hr : keepsSound (resizeCmd wh.1 wh.2) = true := by
        rcases lookupDims_pairs a wh hla with h | h | h | h <;> subst h <;> decide
      show soundThrough [concatCmd, resizeCmd wh.1 wh.2] srcSound = srcSound
      simp [soundThrough, hcc, hr]
  · intro cmds hcmds
    cases hp : lookupPreset platform with
    | none => simp [export_for_platform_cmds, hp] at hcmds
    | some p =>
      simp only [export_for_platform_cmds, hp, Option.some.injEq] at hcmds
      subst hcmds
      have hscale := keepsSound_exportScaleCmd p.width p.height
      unfold exportCmdsOf
      split
      · split
        · show soundThrough [trimCmd]
            (srcSound && keepsSound (exportScaleCmd p.width p.height)) = false
          rw [hscale, Bool.and_false]
          exact soundThrough_false [trimCmd]
        · show soundThrough []
            (srcSound && keepsSound (exportScaleCmd p.width p.height)) = false
          rw [hscale, Bool.and_false]
          rfl
      · show soundThrough []
          (srcSound && keepsSound (exportScaleCmd p.width p.height)) = false
        rw [hscale, Bool.and_false]
        rfl

/-- Concrete instance of `stitch_export_sound_spec`: a [cut, fade] stitch of
3 sources with audio loses the audio; a [cut, cut] stitch keeps it; a
tiktok export of a 40s source produces no audio. -/
theorem stitch_export_sound_spec_witness :
    soundThrough (stitch_videos_cmds 3 [Transition.cut, Transition.fade] none) true = false
    ∧ soundThrough (stitch_videos_cmds 3 [Transition.cut, Transition.cut] none) true = true
    ∧ soundThrough [exportScaleCmd "1080" "1920"] true = false :=
  ⟨(stitch_export_sound_spec 3 [Transition.cut, Transition.fade] none true "tiktok" 40).1
     (by decide),
   (stitch_export_sound_spec 3 [Transition.cut, Transition.cut] none true "tiktok" 40).2.1
     (by decide),
   (stitch_export_sound_spec 3 [Transition.cut, Transition.cut] none true "tiktok" 40).2.2
     [exportScaleCmd "1080" "1920"] (by decide)⟩

end CreditPipeline
